import Mathlib

/-!
Verification of the PCI-DIO48H driver dispatch shim (src/PCI/pci-dio48H/dio48H.c)
and of the hardware-abstraction / device-session layer it delivers.

The only code present in the repository for this driver is the compile-time
version dispatch: a chain of preprocessor conditionals on LINUX_VERSION_CODE
that includes exactly one kernel-API-specific driver body per supported kernel
range, raises a compile error for too-old or too-new kernels, and silently
includes nothing in the uncovered gaps.  That chain is embedded faithfully
below as `includedBodies` / `raisesError` over a natural-number version code.

The register model, port map, session manager and I/O dispatch of the driver
core are not present in the repository (only the version-specific bodies,
which are not shipped, implement them); those components are modelled from
the specification, with each such definition marked `Modelled from the spec:`.
-/

set_option autoImplicit false

namespace Dio48H

/-- The VERSION_CODE macro of dio48H.c:
`#define VERSION_CODE(vers,rel,seq) ( ((vers)<<16) | ((rel)<<8) | (seq) )`. -/
def VERSION_CODE (vers rel seq : Nat) : Nat :=
  (vers <<< 16) ||| (rel <<< 8) ||| seq

/-- The seven kernel-API-specific driver bodies that the dispatch chain of
dio48H.c can include. -/
inductive DriverBody where
  | dio48H_2_4
  | dio48H_2_6
  | dio48H_2_6_29
  | dio48H_3_3_7
  | dio48H_3_10_11
  | dio48H_4_0_8
  | dio48H_5_0_0
deriving DecidableEq, Repr

/-- The dispatch chain of dio48H.c, lines 42-68: each `#if`-guarded
`#include` contributes its body exactly when its version-range condition
holds for `lvc` (the value of LINUX_VERSION_CODE). -/
def includedBodies (lvc : Nat) : List DriverBody :=
  (if VERSION_CODE 2 4 0 ≤ lvc ∧ lvc < VERSION_CODE 2 4 0xff then [DriverBody.dio48H_2_4] else []) ++
  (if VERSION_CODE 2 6 0 ≤ lvc ∧ lvc < VERSION_CODE 2 6 26 then [DriverBody.dio48H_2_6] else []) ++
  (if VERSION_CODE 2 6 29 ≤ lvc ∧ lvc < VERSION_CODE 2 6 35 then [DriverBody.dio48H_2_6_29] else []) ++
  (if VERSION_CODE 3 0 0 ≤ lvc ∧ lvc < VERSION_CODE 3 7 0 then [DriverBody.dio48H_3_3_7] else []) ++
  (if VERSION_CODE 3 7 0 ≤ lvc ∧ lvc < VERSION_CODE 3 20 0 then [DriverBody.dio48H_3_10_11] else []) ++
  (if VERSION_CODE 4 0 0 ≤ lvc ∧ lvc < VERSION_CODE 4 20 0 then [DriverBody.dio48H_4_0_8] else []) ++
  (if VERSION_CODE 5 0 0 ≤ lvc ∧ lvc < VERSION_CODE 5 20 0 then [DriverBody.dio48H_5_0_0] else [])

/-- Line 38-40 of dio48H.c: `#error "This kernel is too old"` when
LINUX_VERSION_CODE < VERSION_CODE(2,4,0). -/
def tooOldError (lvc : Nat) : Bool :=
  lvc < VERSION_CODE 2 4 0

/-- Line 70-72 of dio48H.c: `#error "Your kernel is too new"` when
LINUX_VERSION_CODE >= VERSION_CODE(5,20,0). -/
def tooNewError (lvc : Nat) : Bool :=
  VERSION_CODE 5 20 0 ≤ lvc

/-- The dispatch raises a compile-time error iff one of the two `#error`
directives fires. -/
def raisesError (lvc : Nat) : Bool :=
  tooOldError lvc || tooNewError lvc

/-- A version code lies in one of the seven ranges covered by an `#include`
of the dispatch chain. -/
def coveredVersion (lvc : Nat) : Prop :=
  (VERSION_CODE 2 4 0 ≤ lvc ∧ lvc < VERSION_CODE 2 4 0xff) ∨
  (VERSION_CODE 2 6 0 ≤ lvc ∧ lvc < VERSION_CODE 2 6 26) ∨
  (VERSION_CODE 2 6 29 ≤ lvc ∧ lvc < VERSION_CODE 2 6 35) ∨
  (VERSION_CODE 3 0 0 ≤ lvc ∧ lvc < VERSION_CODE 3 7 0) ∨
  (VERSION_CODE 3 7 0 ≤ lvc ∧ lvc < VERSION_CODE 3 20 0) ∨
  (VERSION_CODE 4 0 0 ≤ lvc ∧ lvc < VERSION_CODE 4 20 0) ∨
  (VERSION_CODE 5 0 0 ≤ lvc ∧ lvc < VERSION_CODE 5 20 0)

/-- A version code lies in one of the five gaps of the dispatch chain:
at least VERSION_CODE(2,4,0) and below VERSION_CODE(5,20,0), yet matched
by no `#include` guard. -/
def inGap (lvc : Nat) : Prop :=
  (VERSION_CODE 2 4 0xff ≤ lvc ∧ lvc < VERSION_CODE 2 6 0) ∨
  (VERSION_CODE 2 6 26 ≤ lvc ∧ lvc < VERSION_CODE 2 6 29) ∨
  (VERSION_CODE 2 6 35 ≤ lvc ∧ lvc < VERSION_CODE 3 0 0) ∨
  (VERSION_CODE 3 20 0 ≤ lvc ∧ lvc < VERSION_CODE 4 0 0) ∨
  (VERSION_CODE 4 20 0 ≤ lvc ∧ lvc < VERSION_CODE 5 0 0)

theorem VC_2_4_0 : VERSION_CODE 2 4 0 = 132096 := by decide
theorem VC_2_4_ff : VERSION_CODE 2 4 0xff = 132351 := by decide
theorem VC_2_6_0 : VERSION_CODE 2 6 0 = 132608 := by decide
theorem VC_2_6_26 : VERSION_CODE 2 6 26 = 132634 := by decide
theorem VC_2_6_29 : VERSION_CODE 2 6 29 = 132637 := by decide
theorem VC_2_6_35 : VERSION_CODE 2 6 35 = 132643 := by decide
theorem VC_3_0_0 : VERSION_CODE 3 0 0 = 196608 := by decide
theorem VC_3_7_0 : VERSION_CODE 3 7 0 = 198400 := by decide
theorem VC_3_20_0 : VERSION_CODE 3 20 0 = 201728 := by decide
theorem VC_4_0_0 : VERSION_CODE 4 0 0 = 262144 := by decide
theorem VC_4_20_0 : VERSION_CODE 4 20 0 = 267264 := by decide
theorem VC_5_0_0 : VERSION_CODE 5 0 0 = 327680 := by decide
theorem VC_5_20_0 : VERSION_CODE 5 20 0 = 332800 := by decide

theorem length_if_single {c : Prop} [Decidable c] (x : DriverBody) :
    (if c then [x] else []).length = if c then 1 else 0 := by
  split <;> rfl

/-- C3: the seven version ranges guarding the body inclusions are pairwise
disjoint: for every value of LINUX_VERSION_CODE, at most one of the seven
version-specific driver bodies is included. -/
theorem bodies_pairwise_disjoint (lvc : Nat) : (includedBodies lvc).length ≤ 1 := by
  unfold includedBodies
  simp only [List.length_append, length_if_single, VC_2_4_0, VC_2_4_ff, VC_2_6_0,
    VC_2_6_26, VC_2_6_29, VC_2_6_35, VC_3_0_0, VC_3_7_0, VC_3_20_0, VC_4_0_0,
    VC_4_20_0, VC_5_0_0, VC_5_20_0]
  split_ifs <;> omega

/-- C1 counterexample: the version code 132352 = VERSION_CODE(2,5,0) is at
least VERSION_CODE(2,4,0) and below VERSION_CODE(5,20,0), yet the dispatch
includes no driver body at all for it, refuting "exactly one body is included
for each such version". -/
theorem dispatch_not_exhaustive_at_2_5_0 :
    VERSION_CODE 2 4 0 ≤ 132352 ∧ 132352 < VERSION_CODE 5 20 0 ∧
    includedBodies 132352 = [] := by decide

/-- C1 (amended): for every version code at least VERSION_CODE(2,4,0) and
below VERSION_CODE(5,20,0), at most one driver body is included, and exactly
one is included iff the version code lies in one of the seven covered ranges
(in the uncovered gaps, none is included). -/
theorem dispatch_selects_at_most_one (lvc : Nat)
    (h1 : VERSION_CODE 2 4 0 ≤ lvc) (h2 : lvc < VERSION_CODE 5 20 0) :
    (includedBodies lvc).length ≤ 1 ∧
    ((includedBodies lvc).length = 1 ↔ coveredVersion lvc) := by
  rw [VC_2_4_0] at h1
  rw [VC_5_20_0] at h2
  unfold includedBodies coveredVersion
  simp only [List.length_append, length_if_single, VC_2_4_0, VC_2_4_ff, VC_2_6_0,
    VC_2_6_26, VC_2_6_29, VC_2_6_35, VC_3_0_0, VC_3_7_0, VC_3_20_0, VC_4_0_0,
    VC_4_20_0, VC_5_0_0, VC_5_20_0]
  split_ifs <;> omega

/-- C1 witness: at version code 196864 = VERSION_CODE(3,1,0) the amended
dispatch property holds concretely. -/
theorem dispatch_selects_at_most_one_at_3_1_0 :
    (includedBodies 196864).length ≤ 1 ∧
    ((includedBodies 196864).length = 1 ↔ coveredVersion 196864) :=
  dispatch_selects_at_most_one 196864 (by decide) (by decide)

/-- C2: the dispatch raises a compile-time error iff the version code is
below VERSION_CODE(2,4,0) or at least VERSION_CODE(5,20,0); and for every
version code in the five uncovered gaps, no driver body is included and no
error is raised. -/
theorem dispatch_error_iff_and_gaps_silent (lvc : Nat) :
    (raisesError lvc = true ↔
      (lvc < VERSION_CODE 2 4 0 ∨ VERSION_CODE 5 20 0 ≤ lvc)) ∧
    (inGap lvc → includedBodies lvc = [] ∧ raisesError lvc = false) := by
  constructor
  · simp [raisesError, tooOldError, tooNewError]
  · intro hg
    unfold inGap at hg
    rw [VC_2_4_ff, VC_2_6_0, VC_2_6_26, VC_2_6_29, VC_2_6_35, VC_3_0_0,
      VC_3_20_0, VC_4_0_0, VC_4_20_0, VC_5_0_0] at hg
    constructor
    · unfold includedBodies
      simp only [VC_2_4_0, VC_2_4_ff, VC_2_6_0, VC_2_6_26, VC_2_6_29, VC_2_6_35,
        VC_3_0_0, VC_3_7_0, VC_3_20_0, VC_4_0_0, VC_4_20_0, VC_5_0_0, VC_5_20_0]
      split_ifs <;> first | rfl | omega
    · simp only [raisesError, tooOldError, tooNewError, Bool.or_eq_false_iff,
        decide_eq_false_iff_not, not_lt, not_le, VC_2_4_0, VC_5_20_0]
      omega

/-- C2 witness: the gap version code 132400 (between VERSION_CODE(2,4,0xff)
and VERSION_CODE(2,6,0)) silently yields an empty driver. -/
theorem gap_2_4_ff_silent :
    includedBodies 132400 = [] ∧ raisesError 132400 = false :=
  (dispatch_error_iff_and_gaps_silent 132400).2
    (Or.inl ⟨by decide, by decide⟩)

/-- C10: for rel and seq below 256, VERSION_CODE(vers,rel,seq) equals
vers*65536 + rel*256 + seq, and it is strictly increasing in lexicographic
(vers, rel, seq) order. -/
theorem VERSION_CODE_arith_and_monotone (v r s v2 r2 s2 : Nat)
    (hr : r < 256) (hs : s < 256) (hr2 : r2 < 256) (hs2 : s2 < 256) :
    VERSION_CODE v r s = v * 65536 + r * 256 + s ∧
    ((v < v2 ∨ (v = v2 ∧ r < r2) ∨ (v = v2 ∧ r = r2 ∧ s < s2)) →
      VERSION_CODE v r s < VERSION_CODE v2 r2 s2) := by
  have key : ∀ a b c : Nat, b < 256 → c < 256 →
      VERSION_CODE a b c = a * 65536 + b * 256 + c := by
    intro a b c hb hc
    unfold VERSION_CODE
    rw [Nat.shiftLeft_eq, Nat.shiftLeft_eq]
    have h1 : a * 2 ^ 16 = 2 ^ 16 * a := Nat.mul_comm _ _
    have h2 : b * 2 ^ 8 = 2 ^ 8 * b := Nat.mul_comm _ _
    rw [h1, h2]
    have hb16 : 2 ^ 8 * b < 2 ^ 16 := by norm_num; omega
    rw [← Nat.mul_add_lt_is_or hb16 a]
    have h3 : 2 ^ 16 * a + 2 ^ 8 * b = 2 ^ 8 * (2 ^ 8 * a + b) := by ring
    rw [h3]
    have hc8 : c < 2 ^ 8 := by norm_num; omega
    rw [← Nat.mul_add_lt_is_or hc8 (2 ^ 8 * a + b)]
    ring
  refine ⟨key v r s hr hs, ?_⟩
  intro hlex
  rw [key v r s hr hs, key v2 r2 s2 hr2 hs2]
  omega

/-- C10 witness: (2,4,0) precedes (2,6,0) lexicographically, so
VERSION_CODE(2,4,0) < VERSION_CODE(2,6,0); the arithmetic identity holds at
(2,4,0). -/
theorem VERSION_CODE_monotone_2_4_0_lt_2_6_0 :
    VERSION_CODE 2 4 0 = 2 * 65536 + 4 * 256 + 0 ∧
    VERSION_CODE 2 4 0 < VERSION_CODE 2 6 0 :=
  ⟨(VERSION_CODE_arith_and_monotone 2 4 0 2 6 0
      (by decide) (by decide) (by decide) (by decide)).1,
   (VERSION_CODE_arith_and_monotone 2 4 0 2 6 0
      (by decide) (by decide) (by decide) (by decide)).2
      (Or.inr (Or.inl ⟨rfl, by decide⟩))⟩

/-! ## Driver core: register model, port map, session manager, I/O dispatch

The version-specific driver bodies implementing these components are not in
the repository; every definition below is modelled from the specification. -/

/-- Modelled from the spec: the direction of a port line, input or output
(the version-specific driver bodies holding the real enumeration are
missing). -/
inductive Direction where
  | input
  | output
deriving DecidableEq, Repr

/-- Modelled from the spec: the logical port identifiers A, B, C of one 8255
chip (the version-specific driver bodies are missing). -/
inductive PortName where
  | A
  | B
  | C
deriving DecidableEq, Repr

/-- Modelled from the spec: the error taxonomy of section 7 (the
version-specific driver bodies are missing). -/
inductive DioError where
  | InvalidConfiguration
  | PortNotFound
  | WrongDirection
  | MapFailed
  | DeviceBusy
deriving DecidableEq, Repr

/-- Modelled from the spec: the decoded mode/direction state of one 8255
chip, as produced by `decode` (the version-specific driver bodies are
missing). -/
structure ModeState where
  mode : Nat
  dir_a : Direction
  dir_b : Direction
  dir_c_hi : Direction
  dir_c_lo : Direction
deriving DecidableEq, Repr

/-- Modelled from the spec: the 8255 control-word direction bit, 1 for input
and 0 for output. -/
def dirBit : Direction → Nat
  | Direction.input => 1
  | Direction.output => 0

/-- Modelled from the spec: `encode_control_word(mode, dir_a, dir_b,
dir_c_hi, dir_c_lo) -> byte`, the pure 8255 control-word encoder of the
Register Model (its real implementation lives in the missing
version-specific bodies).  Bit 7 is the mode-set flag, bits 6-5 the group-A
mode, bit 4 the port-A direction, bit 3 the upper port-C direction, bit 2
the group-B mode, bit 1 the port-B direction, bit 0 the lower port-C
direction.  Rejects out-of-range mode values with `InvalidConfiguration`. -/
def encode_control_word (mode : Nat)
    (dir_a dir_b dir_c_hi dir_c_lo : Direction) : Except DioError Nat :=
  if 2 < mode then Except.error DioError.InvalidConfiguration
  else Except.ok (0x80 ||| (mode <<< 5) ||| (dirBit dir_a <<< 4) |||
    (dirBit dir_c_hi <<< 3) ||| (min mode 1 <<< 2) ||| (dirBit dir_b <<< 1) |||
    dirBit dir_c_lo)

/-- Modelled from the spec: the direction encoded at bit `i` of a control
word. -/
def bitDir (w i : Nat) : Direction :=
  if (w >>> i) &&& 1 = 1 then Direction.input else Direction.output

/-- Modelled from the spec: `decode(byte) -> ModeState`, the pure inverse
reading of an 8255 control word (its real implementation lives in the
missing version-specific bodies). -/
def decode (w : Nat) : ModeState where
  mode := (w >>> 5) &&& 3
  dir_a := bitDir w 4
  dir_b := bitDir w 1
  dir_c_hi := bitDir w 3
  dir_c_lo := bitDir w 0

/-- Modelled from the spec: the register offset of a data port within its
chip's four-register block (port A, B, C at offsets 0, 1, 2; control at 3). -/
def portOffset : PortName → Nat
  | PortName.A => 0
  | PortName.B => 1
  | PortName.C => 2

/-- Modelled from the spec: chip `i`'s control register sits at offset
`4*i + 3` from the device's base. -/
def controlOffset (i : Nat) : Nat := 4 * i + 3

/-- Modelled from the spec: recognition of the board's port names; any
character other than A, B, C is an invalid name. -/
def parsePortName (name : Char) : Option PortName :=
  if name = 'A' then some PortName.A
  else if name = 'B' then some PortName.B
  else if name = 'C' then some PortName.C
  else none

/-- Modelled from the spec: one physical adapter instance, with base I/O
address, mapped-region flag, chip count (2 or 3) and per-chip mode/direction
state (the version-specific driver bodies holding the real structure are
missing). -/
structure Device where
  base : Nat
  chip_count : Nat
  mapped : Bool
  chips : List ModeState
deriving DecidableEq, Repr

/-- Modelled from the spec: one caller's open handle, bound to one port of
one chip. -/
structure Session where
  chip_index : Nat
  port : PortName
deriving DecidableEq, Repr

/-- Modelled from the spec: the Device Session Manager's state, the Device
plus the currently open sessions. -/
structure ManagerState where
  device : Device
  sessions : List Session
deriving DecidableEq, Repr

/-- Modelled from the spec: the safe default chip state programmed at
attach, all ports input, mode 0. -/
def defaultChip : ModeState where
  mode := 0
  dir_a := Direction.input
  dir_b := Direction.input
  dir_c_hi := Direction.input
  dir_c_lo := Direction.input

/-- Modelled from the spec: `attach(base_address, chip_count) -> Device`,
mapping the I/O region (`MapFailed` if unavailable, modelled by the
`regionAvailable` flag) and initializing all chips to the safe default. -/
def attach (base chip_count : Nat) (regionAvailable : Bool) :
    Except DioError Device :=
  if regionAvailable then
    Except.ok { base := base, chip_count := chip_count, mapped := true,
                chips := List.replicate chip_count defaultChip }
  else Except.error DioError.MapFailed

/-- Modelled from the spec: `resolve(chip_index, port_name) -> offset`,
the Port Map lookup; fails with `PortNotFound` if the chip index or port
name is outside the board's physical range.  The returned offset is
relative to the device's base. -/
def resolve (dev : Device) (chip_index : Nat) (name : Char) :
    Except DioError Nat :=
  match parsePortName name with
  | none => Except.error DioError.PortNotFound
  | some p =>
    if chip_index < dev.chip_count then
      Except.ok (4 * chip_index + portOffset p)
    else Except.error DioError.PortNotFound

/-- Modelled from the spec: `open(device, chip_index, port_name) ->
Session`, failing with `PortNotFound` exactly as `resolve` does, otherwise
recording a session bound to the resolved port. -/
def openSession (st : ManagerState) (chip_index : Nat) (name : Char) :
    Except DioError (Session × ManagerState) :=
  match parsePortName name with
  | none => Except.error DioError.PortNotFound
  | some p =>
    if chip_index < st.device.chip_count then
      Except.ok (⟨chip_index, p⟩,
        { st with sessions := ⟨chip_index, p⟩ :: st.sessions })
    else Except.error DioError.PortNotFound

/-- Modelled from the spec: `close(session)` releases the session and does
not alter hardware state. -/
def closeSession (st : ManagerState) (s : Session) : ManagerState :=
  { st with sessions := st.sessions.erase s }

/-- Modelled from the spec: the observable direction of one port of a chip;
port C's observable direction follows its lower half (control-word bit 0). -/
def portDir (m : ModeState) : PortName → Direction
  | PortName.A => m.dir_a
  | PortName.B => m.dir_b
  | PortName.C => m.dir_c_lo

/-- Modelled from the spec: one low-level register transaction issued by an
I/O Dispatch call. -/
inductive RegTxn where
  | readReg (offset : Nat)
  | writeReg (offset : Nat) (value : Nat)
deriving DecidableEq, Repr

/-- Modelled from the spec: `configure(session, mode, direction) -> ()`,
reprogramming the owning chip's control register through the Register
Model: the encoded control word is written to the chip's control register
and the chip's whole mode/direction state is replaced by its decoding,
affecting every port of that chip. -/
def configure (st : ManagerState) (s : Session) (mode : Nat)
    (dir_a dir_b dir_c_hi dir_c_lo : Direction) :
    Except DioError (ManagerState × List RegTxn) :=
  if s.chip_index < st.device.chip_count then
    match encode_control_word mode dir_a dir_b dir_c_hi dir_c_lo with
    | Except.error e => Except.error e
    | Except.ok w =>
      Except.ok
        ({ st with device :=
            { st.device with
              chips := st.device.chips.set s.chip_index (decode w) } },
         [RegTxn.writeReg (controlOffset s.chip_index) w])
  else Except.error DioError.PortNotFound

/-- Modelled from the spec: `read(session) -> byte`: rejected with
`WrongDirection` on an output-configured port, otherwise one register read
returning the externally driven value `pins`. -/
def readPort (st : ManagerState) (s : Session) (pins : Nat) :
    Except DioError (Nat × List RegTxn) :=
  match st.device.chips[s.chip_index]? with
  | none => Except.error DioError.PortNotFound
  | some m =>
    if portDir m s.port = Direction.output then
      Except.error DioError.WrongDirection
    else
      Except.ok (pins % 256, [RegTxn.readReg (4 * s.chip_index + portOffset s.port)])

/-- Modelled from the spec: `write(session, value) -> ()`: rejected with
`WrongDirection` on an input-configured port, otherwise one register
write. -/
def writePort (st : ManagerState) (s : Session) (value : Nat) :
    Except DioError (List RegTxn) :=
  match st.device.chips[s.chip_index]? with
  | none => Except.error DioError.PortNotFound
  | some m =>
    if portDir m s.port = Direction.input then
      Except.error DioError.WrongDirection
    else
      Except.ok [RegTxn.writeReg (4 * s.chip_index + portOffset s.port) value]

/-- Modelled from the spec: `detach(device)`: fails with `DeviceBusy` while
sessions are open, leaving the state unchanged; once all sessions are
closed it succeeds and unmaps the I/O region. -/
def detach (st : ManagerState) : Except DioError Unit × ManagerState :=
  if st.sessions.isEmpty then
    (Except.ok (), { st with device := { st.device with mapped := false } })
  else (Except.error DioError.DeviceBusy, st)

/-- A concrete two-chip board state used by the witnesses: freshly attached,
all chips at the safe default, no open sessions. -/
def sampleState : ManagerState where
  device :=
    { base := 0, chip_count := 2, mapped := true,
      chips := List.replicate 2 defaultChip }
  sessions := []

/-- A concrete busy manager state used by the witnesses: the sample board
with one session open on chip 0 port A. -/
def sampleBusy : ManagerState where
  device := sampleState.device
  sessions := [⟨0, PortName.A⟩]

/-- C4: for every mode accepted by configure (mode ≤ 2) and all direction
values, encode_control_word succeeds and decode of its result recovers the
same mode and direction values; on out-of-range mode it fails with
InvalidConfiguration (and, being a pure function, it has no side effects). -/
theorem encode_decode_roundtrip (mode : Nat) (da db dch dcl : Direction) :
    (mode ≤ 2 → ∃ w, encode_control_word mode da db dch dcl = Except.ok w ∧
      decode w = ⟨mode, da, db, dch, dcl⟩) ∧
    (2 < mode → encode_control_word mode da db dch dcl =
      Except.error DioError.InvalidConfiguration) := by
  constructor
  · intro h
    interval_cases mode <;> cases da <;> cases db <;> cases dch <;> cases dcl <;>
      exact ⟨_, rfl, by decide⟩
  · intro h
    unfold encode_control_word
    rw [if_pos h]

/-- C4 witness: the round-trip holds concretely at mode 1 with mixed
directions. -/
theorem encode_decode_roundtrip_mode1 :
    ∃ w, encode_control_word 1 Direction.input Direction.output
        Direction.input Direction.output = Except.ok w ∧
      decode w = ⟨1, Direction.input, Direction.output,
        Direction.input, Direction.output⟩ :=
  (encode_decode_roundtrip 1 Direction.input Direction.output
    Direction.input Direction.output).1 (by decide)

/-- C5: a successful configure issued through a session bound to any port of
a chip yields the same new state and transactions whichever port of that
chip the session is bound to; the chip's whole mode/direction state becomes
the decoding of the encoded control word, so every port's observable
direction follows the control word, and the other chips are untouched. -/
theorem configure_chip_scoped (st : ManagerState) (s : Session) (mode : Nat)
    (da db dch dcl : Direction) (st2 : ManagerState) (t : List RegTxn)
    (hlen : st.device.chips.length = st.device.chip_count)
    (hok : configure st s mode da db dch dcl = Except.ok (st2, t)) :
    (∀ p : PortName,
      configure st ⟨s.chip_index, p⟩ mode da db dch dcl = Except.ok (st2, t)) ∧
    ∃ w, encode_control_word mode da db dch dcl = Except.ok w ∧
      t = [RegTxn.writeReg (controlOffset s.chip_index) w] ∧
      st2.device.chips[s.chip_index]? = some (decode w) ∧
      (∀ p : PortName,
        (st2.device.chips[s.chip_index]?).map (fun m => portDir m p) =
          some (portDir (decode w) p)) ∧
      (∀ j, j ≠ s.chip_index → st2.device.chips[j]? = st.device.chips[j]?) := by
  refine ⟨fun p => hok, ?_⟩
  unfold configure at hok
  split at hok
  · rename_i hlt
    cases henc : encode_control_word mode da db dch dcl with
    | error e => rw [henc] at hok; exact Except.noConfusion hok
    | ok w =>
      rw [henc] at hok
      injection hok with hok
      injection hok with h1 h2
      subst h1
      subst h2
      refine ⟨w, rfl, rfl, ?_, ?_, ?_⟩
      · exact List.getElem?_set_self (by omega)
      · intro p
        rw [List.getElem?_set_self (by omega)]
        rfl
      · intro j hj
        exact List.getElem?_set_ne (fun h => hj h.symm)
  · exact Except.noConfusion hok

/-- C5 witness: configuring chip 0 of the sample board to all-output mode 0
through the port-A session acts chip-wide, identically for every port of
chip 0. -/
theorem configure_chip_scoped_sample :
    (∀ p : PortName,
      configure sampleState ⟨0, p⟩ 0 Direction.output Direction.output
        Direction.output Direction.output =
        Except.ok
          ({ sampleState with device :=
              { sampleState.device with
                chips := sampleState.device.chips.set 0 (decode 128) } },
           [RegTxn.writeReg (controlOffset 0) 128])) ∧
    ∃ w, encode_control_word 0 Direction.output Direction.output
        Direction.output Direction.output = Except.ok w ∧
      [RegTxn.writeReg (controlOffset 0) 128] =
        [RegTxn.writeReg (controlOffset 0) w] ∧
      ({ sampleState with device :=
          { sampleState.device with
            chips := sampleState.device.chips.set 0 (decode 128) } } :
        ManagerState).device.chips[(0 : Nat)]? = some (decode w) ∧
      (∀ p : PortName,
        (({ sampleState with device :=
            { sampleState.device with
              chips := sampleState.device.chips.set 0 (decode 128) } } :
          ManagerState).device.chips[(0 : Nat)]?).map (fun m => portDir m p) =
          some (portDir (decode w) p)) ∧
      (∀ j, j ≠ 0 →
        ({ sampleState with device :=
            { sampleState.device with
              chips := sampleState.device.chips.set 0 (decode 128) } } :
          ManagerState).device.chips[j]? = sampleState.device.chips[j]?) :=
  configure_chip_scoped sampleState ⟨0, PortName.A⟩ 0 Direction.output
    Direction.output Direction.output Direction.output _ _ rfl rfl

/-- C6: on a board with 2 or 3 chips, resolve and open fail with
PortNotFound whenever the requested chip index is at least the chip count or
the port name is not one of A, B, C; they never succeed outside the board's
physical range. -/
theorem open_out_of_range (st : ManagerState) (i : Nat) (name : Char)
    (_hgeom : st.device.chip_count = 2 ∨ st.device.chip_count = 3)
    (hout : st.device.chip_count ≤ i ∨
      (name ≠ 'A' ∧ name ≠ 'B' ∧ name ≠ 'C')) :
    resolve st.device i name = Except.error DioError.PortNotFound ∧
    openSession st i name = Except.error DioError.PortNotFound := by
  rcases hout with hle | ⟨hA, hB, hC⟩
  · have hnl : ¬ i < st.device.chip_count := Nat.not_lt.mpr hle
    cases hp : parsePortName name with
    | none =>
      unfold resolve openSession
      rw [hp]
      exact ⟨rfl, rfl⟩
    | some p =>
      unfold resolve openSession
      simp [hp, hnl]
  · have hp : parsePortName name = none := by
      unfold parsePortName
      rw [if_neg hA, if_neg hB, if_neg hC]
    unfold resolve openSession
    rw [hp]
    exact ⟨rfl, rfl⟩

/-- C6 witness: chip index 2 on the 2-chip sample board, and the invalid
port name X, are both rejected with PortNotFound. -/
theorem open_out_of_range_sample :
    (resolve sampleState.device 2 'A' = Except.error DioError.PortNotFound ∧
      openSession sampleState 2 'A' = Except.error DioError.PortNotFound) ∧
    (resolve sampleState.device 0 'X' = Except.error DioError.PortNotFound ∧
      openSession sampleState 0 'X' = Except.error DioError.PortNotFound) :=
  ⟨open_out_of_range sampleState 2 'A' (Or.inl rfl) (Or.inl (by decide)),
   open_out_of_range sampleState 0 'X' (Or.inl rfl)
     (Or.inr ⟨by decide, by decide, by decide⟩)⟩

/-- C7: detach fails with DeviceBusy while at least one session is open and
returns the state unchanged; once all sessions are closed it succeeds and
unmaps the I/O region. -/
theorem detach_busy_or_unmap (st : ManagerState) :
    (st.sessions ≠ [] →
      detach st = (Except.error DioError.DeviceBusy, st)) ∧
    (st.sessions = [] →
      detach st =
        (Except.ok (),
         { st with device := { st.device with mapped := false } })) := by
  constructor
  · intro h
    unfold detach
    rw [if_neg (by simpa using h)]
  · intro h
    unfold detach
    rw [if_pos (by simp [h])]

/-- C7 witness: detach on the busy sample board fails with DeviceBusy
leaving the state unchanged, and detach on the idle sample board succeeds
and clears the mapped flag. -/
theorem detach_busy_or_unmap_sample :
    detach sampleBusy = (Except.error DioError.DeviceBusy, sampleBusy) ∧
    detach sampleState =
      (Except.ok (),
       { sampleState with device :=
          { sampleState.device with mapped := false } }) :=
  ⟨(detach_busy_or_unmap sampleBusy).1 (by decide),
   (detach_busy_or_unmap sampleState).2 rfl⟩

/-- C8: read fails with WrongDirection exactly when the session's port is
configured as output, write fails with WrongDirection exactly when it is
configured as input, and in the allowed direction each performs a single
register transaction on the port's register. -/
theorem direction_enforcement (st : ManagerState) (s : Session)
    (m : ModeState) (pins value : Nat)
    (hm : st.device.chips[s.chip_index]? = some m) :
    (readPort st s pins = Except.error DioError.WrongDirection ↔
      portDir m s.port = Direction.output) ∧
    (writePort st s value = Except.error DioError.WrongDirection ↔
      portDir m s.port = Direction.input) ∧
    (portDir m s.port = Direction.input →
      readPort st s pins = Except.ok (pins % 256,
        [RegTxn.readReg (4 * s.chip_index + portOffset s.port)])) ∧
    (portDir m s.port = Direction.output →
      writePort st s value = Except.ok
        [RegTxn.writeReg (4 * s.chip_index + portOffset s.port) value]) := by
  unfold readPort writePort
  rw [hm]
  cases hdir : portDir m s.port <;> simp [hdir]

/-- C8 witness: on the freshly attached sample board (all ports input),
reading chip 0 port A succeeds with one register read and writing it fails
with WrongDirection. -/
theorem direction_enforcement_sample :
    (readPort sampleState ⟨0, PortName.A⟩ 5 =
        Except.error DioError.WrongDirection ↔
      portDir defaultChip PortName.A = Direction.output) ∧
    (writePort sampleState ⟨0, PortName.A⟩ 7 =
        Except.error DioError.WrongDirection ↔
      portDir defaultChip PortName.A = Direction.input) ∧
    (portDir defaultChip PortName.A = Direction.input →
      readPort sampleState ⟨0, PortName.A⟩ 5 =
        Except.ok (5 % 256, [RegTxn.readReg (4 * 0 + portOffset PortName.A)])) ∧
    (portDir defaultChip PortName.A = Direction.output →
      writePort sampleState ⟨0, PortName.A⟩ 7 =
        Except.ok [RegTxn.writeReg (4 * 0 + portOffset PortName.A) 7]) :=
  direction_enforcement sampleState ⟨0, PortName.A⟩ defaultChip 5 7 (by decide)

/-- C9: for every board, chip i's four registers get the offsets 4*i (port
A), 4*i+1 (port B), 4*i+2 (port C) and 4*i+3 (control) from the device's
base, fixed at attach time; configure and open leave every resolved offset
unchanged, so the port map is immutable after attach. -/
theorem port_map_offsets (base count i : Nat) (hi : i < count) :
    (∀ dev, attach base count true = Except.ok dev →
      resolve dev i 'A' = Except.ok (4 * i) ∧
      resolve dev i 'B' = Except.ok (4 * i + 1) ∧
      resolve dev i 'C' = Except.ok (4 * i + 2) ∧
      controlOffset i = 4 * i + 3) ∧
    (∀ st s mode da db dch dcl st2 t,
      configure st s mode da db dch dcl = Except.ok (st2, t) →
      ∀ j nm, resolve st2.device j nm = resolve st.device j nm) ∧
    (∀ st j nm sess st2,
      openSession st j nm = Except.ok (sess, st2) →
      ∀ j2 nm2, resolve st2.device j2 nm2 = resolve st.device j2 nm2) := by
  refine ⟨?_, ?_, ?_⟩
  · intro dev h
    unfold attach at h
    rw [if_pos rfl] at h
    injection h with h
    subst h
    refine ⟨?_, ?_, ?_, rfl⟩ <;>
      simp [resolve, parsePortName, portOffset, hi]
  · intro st s mode da db dch dcl st2 t h
    unfold configure at h
    split at h
    · cases henc : encode_control_word mode da db dch dcl with
      | error e => rw [henc] at h; exact Except.noConfusion h
      | ok w =>
        rw [henc] at h
        injection h with h
        injection h with h1 h2
        subst h1
        intro j nm
        rfl
    · exact Except.noConfusion h
  · intro st j nm sess st2 h
    unfold openSession at h
    split at h
    · exact Except.noConfusion h
    · split at h
      · injection h with h
        injection h with h1 h2
        subst h2
        intro j2 nm2
        rfl
      · exact Except.noConfusion h

/-- C9 witness: on a freshly attached 2-chip board, chip 1's registers
resolve to offsets 4, 5, 6 and its control register to 7. -/
theorem port_map_offsets_sample :
    resolve sampleState.device 1 'A' = Except.ok (4 * 1) ∧
    resolve sampleState.device 1 'B' = Except.ok (4 * 1 + 1) ∧
    resolve sampleState.device 1 'C' = Except.ok (4 * 1 + 2) ∧
    controlOffset 1 = 4 * 1 + 3 :=
  (port_map_offsets 0 2 1 (by decide)).1 sampleState.device rfl

end Dio48H
